import Mathlib

/-!
Verification of the PMW3901 optical-flow sensor driver (`src/lib.rs`).

The driver talks to the sensor over SPI in two-byte frames.  We embed the
driver shallowly: the SPI device (`Spidev`) becomes an abstract `Transport`
over a state type `σ`, whose `step` function consumes one outbound two-byte
frame and produces the two inbound bytes (or `none` for an I/O failure of the
underlying transfer).  Each driver operation returns an `Except` result
(panics in the Rust source become distinguished error values) plus the list
of bus operations it issued, so that ordering and "no writes were issued"
properties can be stated.
-/

namespace Pmw3901

/-- Bytes are naturals; every byte produced by the embedded code is < 256. -/
abbrev Byte := Nat

/-- A two-byte SPI frame (the driver only ever uses two-byte frames). -/
abbrev Frame := Byte × Byte

/-- One observable bus operation issued by the driver:
a single full-duplex transfer, a batched multi-frame transfer
(`transfer_multiple`), or a blocking sleep (milliseconds). -/
inductive Op where
  | transfer : Frame → Op
  | transferMultiple : List Frame → Op
  | sleepMs : Nat → Op
deriving DecidableEq, Repr

/-- Failure modes of the embedded driver.  In the Rust source,
`transport` is an `io::Error` from the SPI layer and the other three are
`panic!` sites: the handshake-byte checks, the product-id checks in `init`,
and the write-bit precondition check in `write_register`. -/
inductive DriverError where
  | transport
  | unexpectedHandshake
  | identityMismatch
  | writeBitSet
deriving DecidableEq, Repr

/-- The SPI transport: from a transport state and an outbound frame, produce
the inbound frame and the next state, or `none` for an I/O error. -/
structure Transport (σ : Type) where
  step : σ → Frame → Option (Frame × σ)

/-- Result of one driver operation: the value (or error) together with the
final transport state on success, and the list of bus operations issued. -/
abbrev DriverResult (σ α : Type) := Except DriverError (α × σ) × List Op

variable {σ : Type}

/-- Embeds `Pmw3901::read_register`: outbound frame `[addr, 0]`, one
transfer; panics (here: `unexpectedHandshake`) unless the first inbound
byte is `0xff`; returns the second inbound byte. -/
def read_register (t : Transport σ) (addr : Byte) (s : σ) : DriverResult σ Byte :=
  match t.step s (addr, 0x00) with
  | none => (.error .transport, [.transfer (addr, 0x00)])
  | some ((r0, r1), s') =>
      if r0 ≠ 0xff then (.error .unexpectedHandshake, [.transfer (addr, 0x00)])
      else (.ok (r1, s'), [.transfer (addr, 0x00)])

/-- Embeds `Pmw3901::write_register`: panics (`writeBitSet`) if bit 7 of
`addr` is already set, before any transfer; otherwise sends
`[addr | 0x80, val]`, requires both inbound bytes to equal `0xff`, and
returns the second inbound byte (`rx_buf[1]`). -/
def write_register (t : Transport σ) (addr val : Byte) (s : σ) : DriverResult σ Byte :=
  if addr &&& 0x80 > 0 then (.error .writeBitSet, [])
  else
    match t.step s (addr ||| 0x80, val) with
    | none => (.error .transport, [.transfer (addr ||| 0x80, val)])
    | some ((r0, r1), s') =>
        if r0 ≠ 0xff then (.error .unexpectedHandshake, [.transfer (addr ||| 0x80, val)])
        else if r1 ≠ 0xff then (.error .unexpectedHandshake, [.transfer (addr ||| 0x80, val)])
        else (.ok (r1, s'), [.transfer (addr ||| 0x80, val)])

/-- Embeds `spi_dev.transfer_multiple`: exchange the frames in order; any
frame's I/O failure fails the whole batched call. -/
def runBatch (t : Transport σ) : σ → List Frame → Option (List Frame × σ)
  | s, [] => some ([], s)
  | s, tx :: txs =>
    match t.step s tx with
    | none => none
    | some (rx, s') =>
      match runBatch t s' txs with
      | none => none
      | some (rxs, s'') => some (rx :: rxs, s'')

/-- The response-validation loop of `read_registers`: for each inbound frame
in order, panic (`unexpectedHandshake`) unless its first byte is `0xff`,
otherwise collect its second byte. -/
def validateReads : List Frame → Except DriverError (List Byte)
  | [] => .ok []
  | (r0, r1) :: rest =>
    if r0 ≠ 0xff then .error .unexpectedHandshake
    else
      match validateReads rest with
      | .ok vs => .ok (r1 :: vs)
      | .error e => .error e

/-- The response-validation loop of `write_registers`.  Faithful to the
source: both checks test `buf.1[0]` (the first inbound byte) — the second
check repeats index 0 even though its panic message says "second byte". -/
def validateWrites : List Frame → Except DriverError Unit
  | [] => .ok ()
  | (r0, _r1) :: rest =>
    if r0 ≠ 0xff then .error .unexpectedHandshake
    else if r0 ≠ 0xff then .error .unexpectedHandshake
    else validateWrites rest

/-- Embeds `Pmw3901::read_registers`: one `[addr, 0]` frame per address,
one batched transfer, then the per-frame validation loop. -/
def read_registers (t : Transport σ) (addrs : List Byte) (s : σ) :
    DriverResult σ (List Byte) :=
  let txs := addrs.map fun a => ((a, 0x00) : Frame)
  match runBatch t s txs with
  | none => (.error .transport, [.transferMultiple txs])
  | some (rxs, s') =>
    match validateReads rxs with
    | .ok vs => (.ok (vs, s'), [.transferMultiple txs])
    | .error e => (.error e, [.transferMultiple txs])

/-- Embeds `Pmw3901::write_registers`: one `[addr | 0x80, val]` frame per
pair (no write-bit precondition check), one batched transfer, then the
per-frame validation loop. -/
def write_registers (t : Transport σ) (pairs : List (Byte × Byte)) (s : σ) :
    DriverResult σ Unit :=
  let txs := pairs.map fun p => ((p.1 ||| 0x80, p.2) : Frame)
  match runBatch t s txs with
  | none => (.error .transport, [.transferMultiple txs])
  | some (rxs, s') =>
    match validateWrites rxs with
    | .ok _ => (.ok ((), s'), [.transferMultiple txs])
    | .error e => (.error e, [.transferMultiple txs])

/-- Configuration batch 1 of `write_init_registers`, in source order. -/
def initRegs1 : List (Byte × Byte) := [
  (0x7F, 0x00), (0x61, 0xAD), (0x7F, 0x03), (0x40, 0x00), (0x7F, 0x05),
  (0x41, 0xB3), (0x43, 0xF1), (0x45, 0x14), (0x5B, 0x32), (0x5F, 0x34),
  (0x7B, 0x08), (0x7F, 0x06), (0x44, 0x1B), (0x40, 0xBF), (0x4E, 0x3F),
  (0x7F, 0x08), (0x65, 0x20), (0x6A, 0x18), (0x7F, 0x09), (0x4F, 0xAF),
  (0x5F, 0x40), (0x48, 0x80), (0x49, 0x80), (0x57, 0x77), (0x60, 0x78),
  (0x61, 0x78), (0x62, 0x08), (0x63, 0x50), (0x7F, 0x0A), (0x45, 0x60),
  (0x7F, 0x00), (0x4D, 0x11), (0x55, 0x80), (0x74, 0x1F), (0x75, 0x1F),
  (0x4A, 0x78), (0x4B, 0x78), (0x44, 0x08), (0x45, 0x50), (0x64, 0xFF),
  (0x65, 0x1F), (0x7F, 0x14), (0x65, 0x60), (0x66, 0x08), (0x63, 0x78),
  (0x7F, 0x15), (0x48, 0x58), (0x7F, 0x07), (0x41, 0x0D), (0x43, 0x14),
  (0x4B, 0x0E), (0x45, 0x0F), (0x44, 0x42), (0x4C, 0x80), (0x7F, 0x10),
  (0x5B, 0x02), (0x7F, 0x07), (0x40, 0x41), (0x70, 0x00)]

/-- Configuration batch 2 of `write_init_registers`, in source order. -/
def initRegs2 : List (Byte × Byte) := [
  (0x32, 0x44), (0x7F, 0x07), (0x40, 0x40), (0x7F, 0x06), (0x62, 0xF0),
  (0x63, 0x00), (0x7F, 0x0D), (0x48, 0xC0), (0x6F, 0xD5), (0x7F, 0x00),
  (0x5B, 0xA0), (0x4E, 0xA8), (0x5A, 0x50), (0x40, 0x80)]

/-- Embeds `Pmw3901::write_init_registers`: batch 1, a 100 ms sleep, then
batch 2; an error in batch 1 returns before the sleep. -/
def write_init_registers (t : Transport σ) (s : σ) : DriverResult σ Unit :=
  match write_registers t initRegs1 s with
  | (.error e, ops1) => (.error e, ops1)
  | (.ok (_, s1), ops1) =>
    match write_registers t initRegs2 s1 with
    | (.error e, ops2) => (.error e, ops1 ++ [.sleepMs 100] ++ ops2)
    | (.ok (u, s2), ops2) => (.ok (u, s2), ops1 ++ [.sleepMs 100] ++ ops2)

/-- Embeds `Pmw3901::init`: power-on-reset write `0x3A ← 0x5A`, product-id
read (must be `0x49`), inverse-product-id read (must be `0xB6`), then the
configuration-register sequence.  The product-id panics become
`identityMismatch`. -/
def init (t : Transport σ) (s : σ) : DriverResult σ Unit :=
  match write_register t 0x3A 0x5A s with
  | (.error e, ops1) => (.error e, ops1)
  | (.ok (_, s1), ops1) =>
    match read_register t 0x00 s1 with
    | (.error e, ops2) => (.error e, ops1 ++ ops2)
    | (.ok (pid, s2), ops2) =>
      if pid ≠ 0x49 then (.error .identityMismatch, ops1 ++ ops2)
      else
        match read_register t 0x5F s2 with
        | (.error e, ops3) => (.error e, ops1 ++ ops2 ++ ops3)
        | (.ok (ipid, s3), ops3) =>
          if ipid ≠ 0xB6 then (.error .identityMismatch, ops1 ++ ops2 ++ ops3)
          else
            match write_init_registers t s3 with
            | (.error e, ops4) => (.error e, ops1 ++ ops2 ++ ops3 ++ ops4)
            | (.ok (u, s4), ops4) => (.ok (u, s4), ops1 ++ ops2 ++ ops3 ++ ops4)

/-- Motion output of the sensor (`Pmw3901Sample`); the two fields are the
mathematical values of the `i16` components. -/
structure Pmw3901Sample where
  x : Int
  y : Int
deriving DecidableEq, Repr

/-- `LittleEndian::read_i16` on two bytes: assemble the unsigned 16-bit
value `lo + 256 * hi` and interpret it in two's complement. -/
def read_i16 (lo hi : Byte) : Int :=
  let u := lo + 256 * hi
  if u < 0x8000 then (u : Int) else (u : Int) - 0x10000

/-- Embeds `Pmw3901::read_sample`: one batched read of registers
`[0x02, 0x03, 0x04, 0x05, 0x06]`; x is assembled from batch positions 1–2
and y from positions 3–4 (position 0 is discarded).  The Rust slice
accesses `res[1..3]` and `res[3..5]` cannot be out of range because a
successful batched read of five addresses returns five values; `getD`'s
default is therefore never used. -/
def read_sample (t : Transport σ) (s : σ) : DriverResult σ Pmw3901Sample :=
  match read_registers t [0x02, 0x03, 0x04, 0x05, 0x06] s with
  | (.error e, ops) => (.error e, ops)
  | (.ok (res, s'), ops) =>
      (.ok ({ x := read_i16 (res.getD 1 0) (res.getD 2 0),
              y := read_i16 (res.getD 3 0) (res.getD 4 0) }, s'), ops)

/-! ## Concrete transports used as witnesses -/

/-- A stateless transport answering every frame with a fixed function. -/
def constTransport (f : Frame → Frame) : Transport Unit :=
  ⟨fun _ tx => some (f tx, ())⟩

/-- A healthy device: correct product id, inverse product id, and `0xFF`
handshake bytes everywhere else. -/
def demoDevice : Transport Unit :=
  constTransport fun tx =>
    if tx = (0x00, 0x00) then (0xff, 0x49)
    else if tx = (0x5F, 0x00) then (0xff, 0xB6)
    else (0xff, 0xff)

/-- A device holding motion registers 0x02..0x06 = AA 10 00 F0 FF. -/
def sampleDevice : Transport Unit :=
  constTransport fun tx =>
    if tx = (0x02, 0x00) then (0xff, 0xAA)
    else if tx = (0x03, 0x00) then (0xff, 0x10)
    else if tx = (0x04, 0x00) then (0xff, 0x00)
    else if tx = (0x05, 0x00) then (0xff, 0xF0)
    else if tx = (0x06, 0x00) then (0xff, 0xFF)
    else (0xff, 0xff)

/-- A transport answering `0xFF 0xFF` to every frame. -/
def allFF : Transport Unit := constTransport fun _ => (0xff, 0xff)

/-- A transport with a valid first handshake byte but second byte `0x00`. -/
def ackLowDevice : Transport Unit := constTransport fun _ => (0xff, 0x00)

/-- A transport answering `0x00 0x07` (invalid handshake) to every frame. -/
def badHandshakeDevice : Transport Unit := constTransport fun _ => (0x00, 0x07)

/-- A device with a wrong product id (`0x00` instead of `0x49`). -/
def badIdDevice : Transport Unit :=
  constTransport fun tx => if tx = (0x00, 0x00) then (0xff, 0x00) else (0xff, 0xff)

/-! ## Byte-level helper lemmas -/

/-- If bit 7 of `addr` is clear then `addr &&& 0x80 = 0`. -/
theorem and_128_eq_zero {addr : Byte} (h7 : addr.testBit 7 = false) :
    addr &&& 0x80 = 0 :=
  Nat.eq_of_testBit_eq fun i => by
    rw [Nat.testBit_and, Nat.zero_testBit]
    rcases eq_or_ne i 7 with rfl | hi
    · simp [h7]
    · have h80 : (0x80 : Nat).testBit i = false := by
        have : (2 ^ 7 : Nat).testBit i = false := Nat.testBit_two_pow_of_ne hi.symm
        simpa using this
      simp [h80]

/-- If bit 7 of `addr` is set then `addr &&& 0x80 > 0`. -/
theorem and_128_pos {addr : Byte} (h7 : addr.testBit 7 = true) :
    addr &&& 0x80 > 0 := by
  apply Nat.pos_of_ne_zero
  intro h0
  have h := Nat.testBit_and addr 0x80 7
  have h80 : (0x80 : Nat).testBit 7 = true := by decide
  rw [h0, Nat.zero_testBit, h7, h80] at h
  simp at h

/-! ## Trace-shape helper lemmas -/

variable {σ : Type}

/-- `read_register` always issues exactly its one transfer. -/
theorem read_register_ops (t : Transport σ) (addr : Byte) (s : σ) :
    (read_register t addr s).2 = [Op.transfer (addr, 0x00)] := by
  unfold read_register
  rcases t.step s (addr, 0x00) with _ | ⟨⟨r0, r1⟩, s'⟩
  · rfl
  · by_cases hr : r0 = 0xff <;> simp [hr]

/-- `write_register` with the write bit clear always issues exactly its one
transfer. -/
theorem write_register_ops (t : Transport σ) (addr val : Byte) (s : σ)
    (h7 : ¬ addr &&& 0x80 > 0) :
    (write_register t addr val s).2 = [Op.transfer (addr ||| 0x80, val)] := by
  unfold write_register
  rw [if_neg h7]
  rcases t.step s (addr ||| 0x80, val) with _ | ⟨⟨r0, r1⟩, s'⟩
  · rfl
  · by_cases hr0 : r0 = 0xff <;> by_cases hr1 : r1 = 0xff <;> simp [hr0, hr1]

/-- `write_registers` always issues exactly its one batched transfer. -/
theorem write_registers_ops (t : Transport σ) (pairs : List (Byte × Byte)) (s : σ) :
    (write_registers t pairs s).2 =
      [Op.transferMultiple (pairs.map fun p => (p.1 ||| 0x80, p.2))] := by
  cases h : runBatch t s (pairs.map fun p => ((p.1 ||| 0x80, p.2) : Frame)) with
  | none => simp [write_registers, h]
  | some rs =>
    obtain ⟨rxs, s'⟩ := rs
    cases hv : validateWrites rxs <;> simp [write_registers, h, hv]

/-- `validateWrites` can only fail with `unexpectedHandshake`. -/
theorem validateWrites_error (rxs : List Frame) (e : DriverError)
    (h : validateWrites rxs = .error e) : e = .unexpectedHandshake := by
  induction rxs with
  | nil => simp [validateWrites] at h
  | cons r rest ih =>
    obtain ⟨r0, r1⟩ := r
    by_cases hr : r0 = 0xff
    · rw [validateWrites, if_neg (by simp [hr]), if_neg (by simp [hr])] at h
      exact ih h
    · rw [validateWrites, if_pos (by simpa using hr)] at h
      exact (Except.error.injEq _ _).mp h |>.symm

/-! ## Claim theorems -/

/-- C6: `read_register addr` builds the two-byte outbound frame
`[addr, 0x00]` and performs exactly one transfer; if the first inbound byte
differs from `0xFF` it fails with `unexpectedHandshake` (returning no
value), and otherwise it returns the second inbound byte. -/
theorem read_register_spec (t : Transport σ) (s s' : σ) (addr r0 r1 : Byte)
    (h : t.step s (addr, 0x00) = some ((r0, r1), s')) :
    (read_register t addr s).2 = [Op.transfer (addr, 0x00)] ∧
    (r0 ≠ 0xff → (read_register t addr s).1 = .error .unexpectedHandshake) ∧
    (r0 = 0xff → (read_register t addr s).1 = .ok (r1, s')) := by
  by_cases hr : r0 = 0xff <;> simp [read_register, h, hr]

/-- Witness for C6 at a concrete transport whose handshake byte is `0x00`:
the read fails with `unexpectedHandshake`. -/
theorem read_register_spec_witness :
    (read_register badHandshakeDevice 0x02 ()).1 = .error .unexpectedHandshake :=
  (read_register_spec badHandshakeDevice () () 0x02 0x00 0x07 rfl).2.1 (by decide)

/-- C9: `write_register` with bit 7 of the address already set is rejected
deterministically (`writeBitSet`, the caller contract panic) with an empty
operation trace, i.e. before any transfer is attempted. -/
theorem write_register_write_bit_contract (t : Transport σ) (s : σ) (addr val : Byte)
    (h7 : addr.testBit 7 = true) :
    write_register t addr val s = (.error .writeBitSet, []) := by
  rw [write_register, if_pos (and_128_pos h7)]

/-- Witness for C9 at `addr = 0x80`. -/
theorem write_register_write_bit_contract_witness :
    write_register allFF 0x80 0x01 () = (.error .writeBitSet, []) :=
  write_register_write_bit_contract allFF () 0x80 0x01 (by decide)

/-- Counterexample to C4 as stated: with a transport answering `0xFF 0xFF`,
`write_register 0x3A 0x5A` succeeds but returns `0xFF`, not the written
value `0x5A`. -/
theorem write_register_echo_counterexample :
    (write_register allFF 0x3A 0x5A ()).1 = .ok (0xFF, ()) ∧ (0xFF : Byte) ≠ 0x5A := by
  constructor
  · rfl
  · decide

/-- C4 (amended): for every address with bit 7 clear and every value, and
every transport whose two response bytes both equal `0xFF`,
`write_register addr val` succeeds and returns the second inbound byte
`0xFF` (hence it returns `val` exactly when `val = 0xFF`). -/
theorem write_register_success (t : Transport σ) (s s' : σ) (addr val : Byte)
    (h7 : addr.testBit 7 = false)
    (h : t.step s (addr ||| 0x80, val) = some ((0xff, 0xff), s')) :
    (write_register t addr val s).1 = .ok (0xff, s') := by
  have hz : addr &&& 0x80 = 0 := and_128_eq_zero h7
  simp [write_register, hz, h]

/-- Witness for C4 (amended) at `addr = 0x3A`, `val = 0x5A`. -/
theorem write_register_success_witness :
    (write_register allFF 0x3A 0x5A ()).1 = .ok (0xff, ()) :=
  write_register_success allFF () () 0x3A 0x5A (by decide) rfl

/-- C5: the batched write-validation does NOT mirror `write_register`.  On
the identical response frame `0xFF 0x00` (valid first byte, invalid second
byte) the batched `write_registers` succeeds — the source checks response
index 0 twice, despite its second panic message saying "second byte" —
while the single `write_register` fails with `unexpectedHandshake`. -/
theorem write_registers_second_byte_unchecked :
    (write_registers ackLowDevice [(0x00, 0x00)] ()).1 = .ok ((), ()) ∧
    (write_register ackLowDevice 0x00 0x00 ()).1 = .error .unexpectedHandshake := by
  constructor <;> rfl

/-- C10: `write_registers` performs no write-bit precondition check: a pair
list containing an address with bit 7 already set is never rejected with
`writeBitSet`; the batched transfer of frames `[addr | 0x80, val]` is
issued, and for such an address the first outbound byte coincides with the
one for the corresponding bit-7-cleared address `addr ^^^ 0x80`. -/
theorem write_registers_no_write_bit_check (t : Transport σ) (s : σ)
    (addr val : Byte) (pairs : List (Byte × Byte))
    (hmem : (addr, val) ∈ pairs) (h7 : addr.testBit 7 = true) :
    (write_registers t pairs s).1 ≠ .error .writeBitSet ∧
    (write_registers t pairs s).2 =
      [Op.transferMultiple (pairs.map fun p => (p.1 ||| 0x80, p.2))] ∧
    addr ||| 0x80 = (addr ^^^ 0x80) ||| 0x80 ∧
    (addr ^^^ 0x80).testBit 7 = false := by
  refine ⟨?_, write_registers_ops t pairs s, ?_, ?_⟩
  · cases h : runBatch t s (pairs.map fun p => ((p.1 ||| 0x80, p.2) : Frame)) with
    | none => simp [write_registers, h]
    | some rs =>
      obtain ⟨rxs, s'⟩ := rs
      cases hv : validateWrites rxs with
      | ok u => simp [write_registers, h, hv]
      | error e =>
        have he := validateWrites_error rxs e hv
        subst he
        simp [write_registers, h, hv]
  · refine Nat.eq_of_testBit_eq fun i => ?_
    have h80 : ∀ j, (0x80 : Nat).testBit j = decide (7 = j) := fun j => by
      have : (2 ^ 7 : Nat).testBit j = decide (7 = j) := Nat.testBit_two_pow
      simpa using this
    rcases eq_or_ne i 7 with rfl | hi
    · simp [Nat.testBit_or, h80]
    · simp [Nat.testBit_or, Nat.testBit_xor, h80, (Ne.symm hi)]
  · have h80 : (0x80 : Nat).testBit 7 = true := by decide
    simp [Nat.testBit_xor, h7, h80]

/-- Witness for C10 at the pair list `[(0x81, 0x01)]`. -/
theorem write_registers_no_write_bit_check_witness :
    (write_registers allFF [(0x81, 0x01)] ()).1 ≠ .error .writeBitSet ∧
    (write_registers allFF [(0x81, 0x01)] ()).2 =
      [Op.transferMultiple ([((0x81 : Byte), (0x01 : Byte))].map fun p => (p.1 ||| 0x80, p.2))] ∧
    (0x81 : Byte) ||| 0x80 = ((0x81 : Byte) ^^^ 0x80) ||| 0x80 ∧
    ((0x81 : Byte) ^^^ 0x80).testBit 7 = false :=
  write_registers_no_write_bit_check allFF () 0x81 0x01 [(0x81, 0x01)]
    (List.mem_singleton.mpr rfl) (by decide)

/-- C3: when the five response frames of the batched read of registers
`[0x02, 0x03, 0x04, 0x05, 0x06]` are valid, `read_sample` discards the
value at batch position 0 and assembles `x` from positions 1–2 and `y`
from positions 3–4 as little-endian signed 16-bit integers. -/
theorem read_sample_assembly (t : Transport σ) (s s' : σ) (v2 v3 v4 v5 v6 : Byte)
    (h : runBatch t s [(0x02, 0x00), (0x03, 0x00), (0x04, 0x00), (0x05, 0x00), (0x06, 0x00)]
        = some ([(0xff, v2), (0xff, v3), (0xff, v4), (0xff, v5), (0xff, v6)], s')) :
    (read_sample t s).1 = .ok ({ x := read_i16 v3 v4, y := read_i16 v5 v6 }, s') := by
  have hm : ([0x02, 0x03, 0x04, 0x05, 0x06].map fun a => ((a, 0x00) : Frame)) =
      [(0x02, 0x00), (0x03, 0x00), (0x04, 0x00), (0x05, 0x00), (0x06, 0x00)] := rfl
  simp [read_sample, read_registers, hm, h, validateReads]

/-- Witness for C3: register values 0x03=0x10, 0x04=0x00, 0x05=0xF0,
0x06=0xFF yield `x = 16` and `y = -16`. -/
theorem read_sample_assembly_witness :
    (read_sample sampleDevice ()).1 = .ok ({ x := 16, y := -16 }, ()) := by
  rw [read_sample_assembly sampleDevice () () 0xAA 0x10 0x00 0xF0 0xFF rfl]
  norm_num [read_i16]

/-- A batched transfer produces exactly one response frame per request
frame. -/
theorem runBatch_length (t : Transport σ) (txs : List Frame) :
    ∀ (s s' : σ) (rxs : List Frame), runBatch t s txs = some (rxs, s') →
      rxs.length = txs.length := by
  induction txs with
  | nil =>
    intro s s' rxs h
    simp only [runBatch, Option.some.injEq, Prod.mk.injEq] at h
    obtain ⟨h1, -⟩ := h
    subst h1
    rfl
  | cons tx rest ih =>
    intro s s' rxs h
    cases hstep : t.step s tx with
    | none => simp [runBatch, hstep] at h
    | some p =>
      obtain ⟨rx, s1⟩ := p
      cases hrest : runBatch t s1 rest with
      | none => simp [runBatch, hstep, hrest] at h
      | some q =>
        obtain ⟨rxs1, s2⟩ := q
        simp only [runBatch, hstep, hrest, Option.some.injEq, Prod.mk.injEq] at h
        obtain ⟨h1, -⟩ := h
        subst h1
        simp [ih s1 s2 rxs1 hrest]

/-- If every response frame carries the `0xFF` handshake, the read
validation returns the second bytes in order. -/
theorem validateReads_ok (rxs : List Frame) (hok : ∀ r ∈ rxs, r.1 = 0xff) :
    validateReads rxs = .ok (rxs.map Prod.snd) := by
  induction rxs with
  | nil => rfl
  | cons r rest ih =>
    obtain ⟨r0, r1⟩ := r
    have h0 : r0 = 0xff := hok (r0, r1) (List.mem_cons_self _ _)
    rw [validateReads, if_neg (by simp [h0]),
      ih fun x hx => hok x (List.mem_cons_of_mem _ hx)]
    rfl

/-- If some response frame lacks the `0xFF` handshake, the read validation
fails with `unexpectedHandshake`. -/
theorem validateReads_bad (rxs : List Frame) (hbad : ∃ r ∈ rxs, r.1 ≠ 0xff) :
    validateReads rxs = .error .unexpectedHandshake := by
  induction rxs with
  | nil => simp at hbad
  | cons r rest ih =>
    obtain ⟨r0, r1⟩ := r
    by_cases h0 : r0 = 0xff
    · rw [validateReads, if_neg (by simp [h0])]
      have : ∃ x ∈ rest, x.1 ≠ 0xff := by
        obtain ⟨x, hx, hxb⟩ := hbad
        rcases List.mem_cons.mp hx with rfl | hx'
        · exact absurd h0 hxb
        · exact ⟨x, hx', hxb⟩
      rw [ih this]
    · rw [validateReads, if_pos (by simpa using h0)]

/-- C7: a batched read of N addresses whose response frames all carry a
valid first handshake byte returns exactly N values, the i-th being the
second inbound byte of the frame for the i-th input address. -/
theorem read_registers_order (t : Transport σ) (s s' : σ) (addrs : List Byte)
    (rxs : List Frame)
    (h : runBatch t s (addrs.map fun a => (a, 0x00)) = some (rxs, s'))
    (hok : ∀ r ∈ rxs, r.1 = 0xff) :
    (read_registers t addrs s).1 = .ok (rxs.map Prod.snd, s') ∧
    (rxs.map Prod.snd).length = addrs.length := by
  constructor
  · simp [read_registers, h, validateReads_ok rxs hok]
  · rw [List.length_map]
    simpa using runBatch_length t (addrs.map fun a => (a, 0x00)) s s' rxs h

/-- Witness for C7: two addresses against an all-`0xFF` transport yield the
two second bytes in input order. -/
theorem read_registers_order_witness :
    (read_registers allFF [0x10, 0x20] ()).1 =
      .ok ([(0xff, 0xff), (0xff, 0xff)].map Prod.snd, ()) ∧
    ([((0xff : Byte), (0xff : Byte)), (0xff, 0xff)].map Prod.snd).length =
      [(0x10 : Byte), 0x20].length :=
  read_registers_order allFF () () [0x10, 0x20] [(0xff, 0xff), (0xff, 0xff)]
    rfl (by decide)

/-- C8: if the k-th response frame of a batched read lacks the `0xFF`
handshake, the whole call fails with `unexpectedHandshake` and returns no
values, not even those of earlier frames. -/
theorem read_registers_failfast (t : Transport σ) (s s' : σ) (addrs : List Byte)
    (rxs : List Frame) (k : Nat) (hk : k < rxs.length)
    (h : runBatch t s (addrs.map fun a => (a, 0x00)) = some (rxs, s'))
    (hbad : (rxs.get ⟨k, hk⟩).1 ≠ 0xff) :
    (read_registers t addrs s).1 = .error .unexpectedHandshake ∧
    ∀ (vs : List Byte) (s'' : σ), (read_registers t addrs s).1 ≠ .ok (vs, s'') := by
  have hex : ∃ r ∈ rxs, r.1 ≠ 0xff := ⟨rxs.get ⟨k, hk⟩, List.get_mem rxs k hk, hbad⟩
  have hfst : (read_registers t addrs s).1 = .error .unexpectedHandshake := by
    simp [read_registers, h, validateReads_bad rxs hex]
  exact ⟨hfst, fun vs s'' => by rw [hfst]; simp⟩

/-- Witness for C8: a two-frame batch whose second frame (k = 1) has
handshake byte `0x00` fails wholesale, returning neither value. -/
theorem read_registers_failfast_witness :
    (read_registers badHandshakeDevice [0x10, 0x20] ()).1 =
      .error .unexpectedHandshake ∧
    ∀ (vs : List Byte) (s'' : Unit),
      (read_registers badHandshakeDevice [0x10, 0x20] ()).1 ≠ .ok (vs, s'') :=
  read_registers_failfast badHandshakeDevice () () [0x10, 0x20]
    [(0x00, 0x07), (0x00, 0x07)] 1 (by decide) rfl (by decide)

/-- A successful `write_init_registers` issues batch 1, the 100 ms sleep,
and batch 2, in that order. -/
theorem write_init_registers_success_ops (t : Transport σ) (s : σ)
    (h : ∃ v, (write_init_registers t s).1 = .ok v) :
    (write_init_registers t s).2 =
      [Op.transferMultiple (initRegs1.map fun p => (p.1 ||| 0x80, p.2)),
       Op.sleepMs 100,
       Op.transferMultiple (initRegs2.map fun p => (p.1 ||| 0x80, p.2))] := by
  obtain ⟨v, hv⟩ := h
  unfold write_init_registers at hv
  rcases hw1 : write_registers t initRegs1 s with ⟨f1, ops1⟩
  simp only [hw1] at hv
  cases f1 with
  | error e => simp at hv
  | ok p1 =>
    obtain ⟨u1, s1⟩ := p1
    rcases hw2 : write_registers t initRegs2 s1 with ⟨f2, ops2⟩
    simp only [hw2] at hv
    cases f2 with
    | error e => simp at hv
    | ok p2 =>
      obtain ⟨u2, s2⟩ := p2
      have e1 : ops1 = [Op.transferMultiple (initRegs1.map fun p => (p.1 ||| 0x80, p.2))] := by
        have := congrArg Prod.snd hw1
        rw [write_registers_ops] at this
        exact this.symm
      have e2 : ops2 = [Op.transferMultiple (initRegs2.map fun p => (p.1 ||| 0x80, p.2))] := by
        have := congrArg Prod.snd hw2
        rw [write_registers_ops] at this
        exact this.symm
      simp [write_init_registers, hw1, hw2, e1, e2]

/-- C1: whenever `init` succeeds, the bus operations issued are exactly, in
order: the power-on-reset write of `0x5A` to register `0x3A` (frame
`[0x3A | 0x80, 0x5A] = [0xBA, 0x5A]`), the read of register `0x00`, the
read of register `0x5F`, the batched write of configuration batch 1 in
exact table order, the 100 ms settling sleep, and the batched write of
configuration batch 2 in exact table order; batch 1 has 59 writes and
batch 2 has 14. -/
theorem init_success_trace (t : Transport σ) (s : σ)
    (h : ∃ v, (init t s).1 = .ok v) :
    (init t s).2 =
      [Op.transfer (0xBA, 0x5A), Op.transfer (0x00, 0x00), Op.transfer (0x5F, 0x00),
       Op.transferMultiple (initRegs1.map fun p => (p.1 ||| 0x80, p.2)),
       Op.sleepMs 100,
       Op.transferMultiple (initRegs2.map fun p => (p.1 ||| 0x80, p.2))] ∧
    initRegs1.length = 59 ∧ initRegs2.length = 14 := by
  refine ⟨?_, by decide, by decide⟩
  obtain ⟨v, hv⟩ := h
  unfold init at hv
  rcases hw : write_register t 0x3A 0x5A s with ⟨fw, ops1⟩
  simp only [hw] at hv
  cases fw with
  | error e => simp at hv
  | ok p =>
    obtain ⟨r, s1⟩ := p
    rcases hr2 : read_register t 0x00 s1 with ⟨f2, ops2⟩
    simp only [hr2] at hv
    cases f2 with
    | error e => simp at hv
    | ok p2 =>
      obtain ⟨pid, s2⟩ := p2
      by_cases hpid : pid ≠ 0x49
      · simp [hpid] at hv
      rcases hr3 : read_register t 0x5F s2 with ⟨f3, ops3⟩
      simp only [hpid, hr3] at hv
      cases f3 with
      | error e => simp at hv
      | ok p3 =>
        obtain ⟨ipid, s3⟩ := p3
        by_cases hipid : ipid ≠ 0xB6
        · simp [hipid] at hv
        rcases hwir : write_init_registers t s3 with ⟨f4, ops4⟩
        simp only [hipid, hwir] at hv
        cases f4 with
        | error e => simp at hv
        | ok p4 =>
          obtain ⟨u4, s4⟩ := p4
          have e1 : ops1 = [Op.transfer (0xBA, 0x5A)] := by
            have := congrArg Prod.snd hw
            rw [write_register_ops t 0x3A 0x5A s (by decide)] at this
            exact this.symm.trans (by decide)
          have e2 : ops2 = [Op.transfer (0x00, 0x00)] := by
            have := congrArg Prod.snd hr2
            rw [read_register_ops] at this
            exact this.symm
          have e3 : ops3 = [Op.transfer (0x5F, 0x00)] := by
            have := congrArg Prod.snd hr3
            rw [read_register_ops] at this
            exact this.symm
          have e4 : ops4 =
              [Op.transferMultiple (initRegs1.map fun p => (p.1 ||| 0x80, p.2)),
               Op.sleepMs 100,
               Op.transferMultiple (initRegs2.map fun p => (p.1 ||| 0x80, p.2))] := by
            have := congrArg Prod.snd hwir
            rw [write_init_registers_success_ops t s3 ⟨(u4, s4), by rw [hwir]⟩] at this
            exact this.symm
          have hpid49 : pid = 0x49 := not_ne_iff.mp hpid
          have hipidB6 : ipid = 0xB6 := not_ne_iff.mp hipid
          subst hpid49 hipidB6
          simp [init, hw, hr2, hr3, hwir, e1, e2, e3, e4]

/-- Witness for C1: against a healthy device, `init` succeeds and the full
trace is produced. -/
theorem init_success_trace_witness :
    (∃ v, (init demoDevice ()).1 = .ok v) ∧
    ((init demoDevice ()).2 =
      [Op.transfer (0xBA, 0x5A), Op.transfer (0x00, 0x00), Op.transfer (0x5F, 0x00),
       Op.transferMultiple (initRegs1.map fun p => (p.1 ||| 0x80, p.2)),
       Op.sleepMs 100,
       Op.transferMultiple (initRegs2.map fun p => (p.1 ||| 0x80, p.2))] ∧
     initRegs1.length = 59 ∧ initRegs2.length = 14) :=
  ⟨⟨((), ()), rfl⟩, init_success_trace demoDevice () ⟨((), ()), rfl⟩⟩

/-- Counterexample to C1 as stated: `init` succeeds against a healthy
device and issues the batched configuration write for batch 1, but that
batch carries 59 register writes — the stated count of 55 is false. -/
theorem init_batch1_count_counterexample :
    (∃ v, (init demoDevice ()).1 = .ok v) ∧
    Op.transferMultiple (initRegs1.map fun p => (p.1 ||| 0x80, p.2))
      ∈ (init demoDevice ()).2 ∧
    (initRegs1.map fun p => (p.1 ||| 0x80, p.2)).length = 59 ∧
    initRegs1.length ≠ 55 :=
  ⟨⟨((), ()), rfl⟩, by decide, by decide, by decide⟩

/-- C2: if the power-on-reset write is acknowledged but the product-id read
returns `pid ≠ 0x49`, `init` fails with `identityMismatch` after issuing
only the reset write and the id read: no batched configuration write is
ever issued. -/
theorem init_bad_product_id (t : Transport σ) (s s1 s2 : σ) (pid : Byte)
    (h1 : t.step s (0xBA, 0x5A) = some ((0xff, 0xff), s1))
    (h2 : t.step s1 (0x00, 0x00) = some ((0xff, pid), s2))
    (hpid : pid ≠ 0x49) :
    (init t s).1 = .error .identityMismatch ∧
    (init t s).2 = [Op.transfer (0xBA, 0x5A), Op.transfer (0x00, 0x00)] ∧
    ∀ txs : List Frame, Op.transferMultiple txs ∉ (init t s).2 := by
  have hw : write_register t 0x3A 0x5A s =
      (.ok (0xff, s1), [Op.transfer (0xBA, 0x5A)]) := by
    have hno : ¬ ((0x3A : Byte) &&& 0x80 > 0) := by decide
    have hfr : (((0x3A : Byte) ||| 0x80, (0x5A : Byte)) : Frame) = (0xBA, 0x5A) := by decide
    simp only [write_register, if_neg hno, hfr]
    rw [h1]
    simp
  have hr : read_register t 0x00 s1 = (.ok (pid, s2), [Op.transfer (0x00, 0x00)]) := by
    simp only [read_register]
    rw [h2]
    simp
  have htr : init t s =
      (.error .identityMismatch,
       [Op.transfer (0xBA, 0x5A), Op.transfer (0x00, 0x00)]) := by
    simp only [init, hw, hr]
    rw [if_pos hpid]
    rfl
  refine ⟨by rw [htr], by rw [htr], ?_⟩
  intro txs hmem
  rw [htr] at hmem
  simp at hmem

/-- Witness for C2: a device answering product id `0x00` makes `init` fail
with `identityMismatch` after only the two single transfers. -/
theorem init_bad_product_id_witness :
    (init badIdDevice ()).1 = .error .identityMismatch ∧
    (init badIdDevice ()).2 = [Op.transfer (0xBA, 0x5A), Op.transfer (0x00, 0x00)] ∧
    ∀ txs : List Frame, Op.transferMultiple txs ∉ (init badIdDevice ()).2 :=
  init_bad_product_id badIdDevice () () () 0x00 rfl rfl (by decide)

end Pmw3901
